import Mathlib

/-!
Verification of the resilient remote-generation request pipeline of the
ImageStudio repository.

The repository contains two variants of the pipeline:
  * src/ImageStudio.jsx          (the current component; names without suffix
                                  or, where both variants are modelled, the
                                  plain names),
  * src/unnamed/part_001         (an older variant of the same component;
                                  modelled here with a _v2 / V2 suffix).

The embedding is shallow: the JavaScript loops are translated to fuel-based
structural recursions where the fuel is exactly the number of loop iterations
still allowed by the loop's own counter (for fetchWithRetry the remaining
retry budget, for the generation loops the remaining variation / attempt
budget), so that the Lean functions are total, executable, and extensionally
identical to the source loops.  External effects (HTTP responses, the random
jitter of Math.random, the wall-clock time, the parsed JSON of each attempt)
are passed in as explicit oracles.
-/

/-! ## Constants (src/ImageStudio.jsx lines 10-12) -/

def MAX_IMAGE_SIZE : Nat := 4 * 1024 * 1024

def MAX_RETRIES : Nat := 3

def REQUEST_TIMEOUT : Nat := 60000

/-! ## Transport wrapper data model -/

/-- Outcome of a single `fetch` call, as seen by `fetchWithRetry`:
an HTTP response with a status and a body text, an AbortError rejection
(the 60s timeout of the jsx variant), or another network-level rejection. -/
inductive NetResult where
  | resp (status : Nat) (body : String)
  | abort
  | netErr (name msg : String)
deriving DecidableEq, Repr

/-- The values `fetchWithRetry` can throw (src/ImageStudio.jsx lines 46-58):
the dedicated payload-too-large and timeout errors, the generic API error
built from the status and body, and re-thrown fetch rejections. -/
inductive JsError where
  | payloadTooLarge
  | invocationTimeout
  | apiError (status : Nat) (body : String)
  | abortError
  | fetchError (name msg : String)
deriving DecidableEq, Repr

/-- The message of each thrown error, exactly as built by the source. -/
def JsError.message : JsError → String
  | .payloadTooLarge => "FUNCTION_PAYLOAD_TOO_LARGE"
  | .invocationTimeout => "FUNCTION_INVOCATION_TIMEOUT"
  | .apiError s b => "Erro na API: " ++ toString s ++ " - " ++ b
  | .abortError => "AbortError"
  | .fetchError n m => n ++ ": " ++ m

/-- Observable transport events: each issued HTTP request (with its 0-based
attempt index) and each backoff wait (with its duration in ms). -/
inductive FetchEvent where
  | request (i : Nat)
  | wait (ms : Nat)
deriving DecidableEq, Repr

def isRequestEv : FetchEvent → Bool
  | .request _ => true
  | _ => false

/-- Result of a `fetchWithRetry` call: a returned response, a thrown error,
or the undefined value returned when the loop body never runs. -/
inductive FetchResult where
  | ok (status : Nat) (body : String)
  | thrown (e : JsError)
  | undef
deriving DecidableEq, Repr

/-- `Response.ok` of the fetch API: status in [200, 300). -/
def statusOk (s : Nat) : Bool := 200 ≤ s && s < 300

/-- One iteration of the jsx wrapper's try block (src/ImageStudio.jsx lines
39-59): 429 with budget left continues the loop; 413, 504, and any other
non-ok status throw (those throws happen inside the try block); an ok
response returns. -/
inductive TryStep where
  | retry429
  | thrown (e : JsError)
  | success (s : Nat) (b : String)
deriving DecidableEq, Repr

def tryStep (retries i : Nat) : NetResult → TryStep
  | .resp s b =>
      if s = 429 ∧ i < retries - 1 then .retry429
      else if s = 413 then .thrown .payloadTooLarge
      else if s = 504 then .thrown .invocationTimeout
      else if statusOk s = false then .thrown (.apiError s b)
      else .success s b
  | .abort => .thrown .abortError
  | .netErr n m => .thrown (.fetchError n m)

/-- The retry loop of src/ImageStudio.jsx lines 27-72.  `script k` is the
outcome of the fetch issued on attempt `k`; `jitter k` is the value of
`Math.random() * 1000` drawn on attempt `k`.  The fuel argument is the
number of loop iterations still allowed (`retries - i`); when it is 0 the
loop guard `i < retries` has failed and the function returns undefined.
A thrown error is caught by the loop's own catch: re-thrown on the final
attempt, otherwise the loop waits `2^i * 1000` ms and retries. -/
def fetchLoop (script : Nat → NetResult) (jitter : Nat → Nat) (retries : Nat) :
    Nat → Nat → FetchResult × List FetchEvent
  | 0, _ => (.undef, [])
  | fuel + 1, i =>
    if i < retries then
      match tryStep retries i (script i) with
      | .retry429 =>
          let r := fetchLoop script jitter retries fuel (i + 1)
          (r.1, .request i :: .wait (2 ^ i * 1000 + jitter i) :: r.2)
      | .thrown e =>
          if i = retries - 1 then (.thrown e, [.request i])
          else
            let r := fetchLoop script jitter retries fuel (i + 1)
            (r.1, .request i :: .wait (2 ^ i * 1000) :: r.2)
      | .success s b => (.ok s b, [.request i])
    else (.undef, [])

/-- `fetchWithRetry` of src/ImageStudio.jsx line 26 (default retries = 3). -/
def fetchWithRetry (script : Nat → NetResult) (jitter : Nat → Nat)
    (retries : Nat := MAX_RETRIES) : FetchResult × List FetchEvent :=
  fetchLoop script jitter retries retries 0

/-- The retry loop of the older wrapper, src/unnamed/part_001 lines 26-44:
no timeout, no 413/504 special cases (they fall into the generic non-ok
throw), and the catch retries immediately without any backoff delay. -/
def fetchLoopV2 (script : Nat → NetResult) (jitter : Nat → Nat) (retries : Nat) :
    Nat → Nat → FetchResult × List FetchEvent
  | 0, _ => (.undef, [])
  | fuel + 1, i =>
    if i < retries then
      match script i with
      | .resp s b =>
          if s = 429 ∧ i < retries - 1 then
            let r := fetchLoopV2 script jitter retries fuel (i + 1)
            (r.1, .request i :: .wait (2 ^ i * 1000 + jitter i) :: r.2)
          else if statusOk s = false then
            if i = retries - 1 then (.thrown (.apiError s b), [.request i])
            else
              let r := fetchLoopV2 script jitter retries fuel (i + 1)
              (r.1, .request i :: r.2)
          else (.ok s b, [.request i])
      | .abort =>
          if i = retries - 1 then (.thrown .abortError, [.request i])
          else
            let r := fetchLoopV2 script jitter retries fuel (i + 1)
            (r.1, .request i :: r.2)
      | .netErr n m =>
          if i = retries - 1 then (.thrown (.fetchError n m), [.request i])
          else
            let r := fetchLoopV2 script jitter retries fuel (i + 1)
            (r.1, .request i :: r.2)
    else (.undef, [])

/-- `fetchWithRetry` of src/unnamed/part_001 line 25 (default retries = 3). -/
def fetchWithRetry_v2 (script : Nat → NetResult) (jitter : Nat → Nat)
    (retries : Nat := 3) : FetchResult × List FetchEvent :=
  fetchLoopV2 script jitter retries retries 0

/-! ## File encoding (fileToBase64) -/

/-- A browser File object as used by the pipeline: its reported size, its
MIME type, and its content bytes. -/
structure JsFile where
  size : Nat
  mimeType : String
  bytes : List Nat
deriving DecidableEq, Repr

/-- The standard base64 alphabet used by the data-URL encoding of
FileReader.readAsDataURL. -/
def B64_TABLE : List Char :=
  "ABCDEFGHIJKLMNOPQRSTUVWXYZabcdefghijklmnopqrstuvwxyz0123456789+/".toList

def b64Char (n : Nat) : Char := B64_TABLE.getD n '='

/-- RFC 4648 base64 of a byte list, 3 bytes to 4 characters, with the usual
padding for a 1- or 2-byte tail. -/
def base64Chunks : List Nat → List Char
  | [] => []
  | [b0] => [b64Char (b0 / 4 % 64), b64Char (b0 % 4 * 16), '=', '=']
  | [b0, b1] =>
      [b64Char (b0 / 4 % 64), b64Char (b0 % 4 * 16 + b1 / 16 % 16),
       b64Char (b1 % 16 * 4), '=']
  | b0 :: b1 :: b2 :: rest =>
      b64Char (b0 / 4 % 64) :: b64Char (b0 % 4 * 16 + b1 / 16 % 16) ::
      b64Char (b1 % 16 * 4 + b2 / 64 % 4) :: b64Char (b2 % 64) ::
      base64Chunks rest

/-- `FileReader.readAsDataURL`: a data URL embedding the base64 payload. -/
def readAsDataURL (f : JsFile) : String :=
  "data:" ++ f.mimeType ++ ";base64," ++ String.mk (base64Chunks f.bytes)

/-- JavaScript `s.split(',')` on a character list. -/
def splitComma : List Char → List (List Char)
  | [] => [[]]
  | c :: cs =>
    if c = ',' then [] :: splitComma cs
    else
      match splitComma cs with
      | [] => [[c]]
      | g :: gs => (c :: g) :: gs

/-- `reader.result.split(',')[1]` (src/ImageStudio.jsx line 86). -/
def afterComma (s : String) : String :=
  String.mk ((splitComma s.toList).getD 1 [])

/-- `fileToBase64` of src/ImageStudio.jsx lines 75-91: rejects files over
MAX_IMAGE_SIZE before creating the FileReader, otherwise resolves with the
payload part of the data URL. -/
def fileToBase64 (f : JsFile) : Except String String :=
  if f.size > MAX_IMAGE_SIZE then
    .error "Imagem muito grande. Máximo: 4MB"
  else
    .ok (afterComma (readAsDataURL f))

/-- `fileToBase64` of src/unnamed/part_001 lines 48-58: no size check. -/
def fileToBase64_v2 (f : JsFile) : Except String String :=
  .ok (afterComma (readAsDataURL f))

/-! ## Generation orchestrator data model -/

/-- UI modes of the component. -/
inductive Mode where
  | generate
  | restore
deriving DecidableEq, Repr

/-- What one generation attempt yields after the orchestrator parses the
response JSON: an embedded image payload (with its optional MIME type, the
source defaults a missing one to image/png), a parsed response without an
image (carrying the model's finish reason), or a thrown transport error
(fetchWithRetry exhausted its retries). -/
inductive AttemptOutcome where
  | image (data : String) (mime : Option String)
  | noImage (finishReason : String)
  | transportError (msg : String)
deriving DecidableEq, Repr

/-- The data URL pushed for a successful attempt
(src/ImageStudio.jsx line 488, src/unnamed/part_001 line 392). -/
def mkDataUrl (m : Option String) (d : String) : String :=
  "data:" ++ m.getD "image/png" ++ ";base64," ++ d

/-- The image a given attempt outcome contributes to the result sequence:
the pushed data URL for a success, nothing otherwise. -/
def imgOf : AttemptOutcome → Option String
  | .image d m => some (mkDataUrl m d)
  | .noImage _ => none
  | .transportError _ => none

/-- Observable orchestrator events: the single fileToBase64 call, and one
event per generation attempt recording the variation number shown to the
model, the full user query text, and the inlineData payload sent. -/
inductive GEvent where
  | encode
  | attempt (idx : Nat) (query : String) (data : String)
deriving DecidableEq, Repr

def isEncodeEv : GEvent → Bool
  | .encode => true
  | _ => false

/-- Result of a generation loop: accumulated data URLs, the final attempt
counter, the emitted events, and (part_001 only) the critical error of an
uncaught transport throw. -/
structure LoopOut where
  images : List String
  attempts : Nat
  events : List GEvent
  critical : Option String
deriving DecidableEq, Repr

/-- Final observable state of a handleGenerate call. -/
structure GenOutput where
  images : List String
  attempts : Nat
  events : List GEvent
  error : Option String
  successMsg : Option String
deriving DecidableEq, Repr

/-- `optimizedPrompt` (src/ImageStudio.jsx lines 159-166). -/
def optimizedPrompt (mode : Mode) (prompt : String) : String :=
  match mode with
  | .generate =>
      if prompt = "" then "N/A"
      else prompt ++
        ", imagem de alta resolução, fotorrealista, iluminação dramática, 8k, obra-prima digital."
  | .restore =>
      "Restaure e aprimore esta foto. Corrija quaisquer danos, melhore a nitidez, o contraste e as cores. Aumente a resolução para a máxima qualidade possível."

/-- Whether `p` is a prefix of the second list. -/
def startsWithChars : List Char → List Char → Bool
  | [], _ => true
  | _ :: _, [] => false
  | p :: ps, c :: cs => p = c && startsWithChars ps cs

/-- Whether `pat` occurs as a contiguous run in the second list. -/
def containsChars (pat : List Char) : List Char → Bool
  | [] => pat.isEmpty
  | c :: cs => startsWithChars pat (c :: cs) || containsChars pat cs

/-- JavaScript `errorMsg.includes(pat)`. -/
def strIncludes (s pat : String) : Bool :=
  containsChars pat.toList s.toList

/-- `handleVercelError` (src/ImageStudio.jsx lines 94-118). -/
def handleVercelError (msg : String) : String :=
  if strIncludes msg "FUNCTION_INVOCATION_TIMEOUT" || strIncludes msg "504" then
    "A geração está demorando muito. Tente com uma imagem menor ou menos variações."
  else if strIncludes msg "FUNCTION_PAYLOAD_TOO_LARGE" || strIncludes msg "413" then
    "A imagem é muito grande. Reduza o tamanho para menos de 4MB."
  else if strIncludes msg "EDGE_FUNCTION_INVOCATION_FAILED" || strIncludes msg "500" then
    "Erro temporário no servidor. Tente novamente em alguns instantes."
  else if strIncludes msg "429" then
    "Muitas requisições. Aguarde um momento antes de tentar novamente."
  else if strIncludes msg "FUNCTION_THROTTLED" then
    "Limite de uso atingido. Tente novamente mais tarde."
  else if msg = "" then "Erro desconhecido. Tente novamente."
  else msg

/-- The per-attempt query text of the jsx loop (src/ImageStudio.jsx lines
450-451), for 0-based loop index `k`. -/
def jsxQuery (base : String) (k : Nat) : String :=
  base ++ " Variação " ++ toString (k + 1) ++ " - altere pose, ângulo ou iluminação."

/-- The generation loop of src/ImageStudio.jsx lines 439-498:
`for (let i = 0; i < totalVariations && attemptCount < maxT; i++)`.
`O k` is the parsed outcome of the attempt made at loop index `k`; the fuel
is the number of iterations the loop counter still allows (`total - i`), so
fuel 0 and a failed guard return the same state.  Every attempt, successful
or not, advances `i`: a classified failure and a caught transport error are
both just skipped (lines 490-497). -/
def genLoop (O : Nat → AttemptOutcome) (base enc : String) (total maxT : Nat) :
    Nat → Nat → Nat → List String → List GEvent → LoopOut
  | 0, _, attemptCount, acc, evs => ⟨acc, attemptCount, evs, none⟩
  | fuel + 1, i, attemptCount, acc, evs =>
    if i < total ∧ attemptCount < maxT then
      let attemptCount2 := attemptCount + 1
      let evs2 := evs ++ [GEvent.attempt (i + 1) (jsxQuery base i) enc]
      match O i with
      | .image d m =>
          genLoop O base enc total maxT fuel (i + 1) attemptCount2
            (acc ++ [mkDataUrl m d]) evs2
      | .noImage _ =>
          genLoop O base enc total maxT fuel (i + 1) attemptCount2 acc evs2
      | .transportError _ =>
          genLoop O base enc total maxT fuel (i + 1) attemptCount2 acc evs2
    else ⟨acc, attemptCount, evs, none⟩

/-- `handleGenerate` of src/ImageStudio.jsx lines 405-517.  `elapsed` is the
wall-clock seconds string interpolated into the success message. -/
def handleGenerate (referenceImage : Option JsFile) (mode : Mode) (prompt : String)
    (candidateCount : Nat) (O : Nat → AttemptOutcome) (elapsed : String) : GenOutput :=
  match referenceImage with
  | none => ⟨[], 0, [], some "Por favor, carregue uma imagem de referência.", none⟩
  | some f =>
    if mode = .generate ∧ prompt.trim = "" then
      ⟨[], 0, [], some "Por favor, forneça uma descrição para a geração.", none⟩
    else
      let finalPromptBase := optimizedPrompt mode prompt
      let totalVariations := min candidateCount 3
      match fileToBase64 f with
      | .error e => ⟨[], 0, [.encode], some (handleVercelError e), none⟩
      | .ok enc =>
        let r := genLoop O finalPromptBase enc totalVariations (totalVariations * 2)
          totalVariations 0 0 [] []
        if r.images.length > 0 then
          ⟨r.images, r.attempts, .encode :: r.events, none,
            some ("Sucesso! " ++ toString r.images.length ++
              " imagem(ns) gerada(s) em " ++ elapsed ++ "s")⟩
        else
          ⟨r.images, r.attempts, .encode :: r.events,
            some "Não foi possível gerar nenhuma imagem. Tente com parâmetros diferentes.",
            none⟩

/-- The per-attempt query text of the part_001 loop (src/unnamed/part_001
line 353): `n` is `newGeneratedImages.length + 1`, `t` the attempt number. -/
def v2Query (base : String) (n t : Nat) : String :=
  base ++ " Crie a Variação N.º " ++ toString n ++
    " do pedido. Altere a pose, ângulo de câmara, iluminação, ou vestuário ligeiramente em relação às variações anteriores. (Tentativa " ++
    toString t ++ ")"

/-- The generation loop of src/unnamed/part_001 lines 346-413:
`while (newGeneratedImages.length < totalVariations && attemptCount < totalVariations * 2)`.
The fuel is the remaining attempt budget (`total * 2 - attemptCount`).
A classified failure only logs and loops again; a transport throw is NOT
caught here and aborts the loop with the critical session error of
line 420. -/
def genLoopV2 (O : Nat → AttemptOutcome) (base enc : String) (total : Nat) :
    Nat → Nat → List String → List GEvent → LoopOut
  | 0, attemptCount, acc, evs => ⟨acc, attemptCount, evs, none⟩
  | fuel + 1, attemptCount, acc, evs =>
    if acc.length < total ∧ attemptCount < total * 2 then
      let attemptCount2 := attemptCount + 1
      let evs2 := evs ++
        [GEvent.attempt (acc.length + 1) (v2Query base (acc.length + 1) attemptCount2) enc]
      match O attemptCount with
      | .image d m =>
          genLoopV2 O base enc total fuel attemptCount2 (acc ++ [mkDataUrl m d]) evs2
      | .noImage _ =>
          genLoopV2 O base enc total fuel attemptCount2 acc evs2
      | .transportError msg =>
          ⟨acc, attemptCount2, evs2,
            some ("Ocorreu um erro CRÍTICO: " ++ msg ++ ". O processo foi interrompido.")⟩
    else ⟨acc, attemptCount, evs, none⟩

/-- `handleGenerate` of src/unnamed/part_001 lines 312-425.  The final
`match` arm for a missing reference image is unreachable: both validation
branches above it have already returned. -/
def handleGenerate_v2 (referenceImage : Option JsFile) (mode : Mode) (prompt : String)
    (candidateCount : Nat) (O : Nat → AttemptOutcome) : GenOutput :=
  if mode = .generate ∧ (prompt = "" ∨ referenceImage = none) then
    ⟨[], 0, [], some "Por favor, forneça um prompt de texto e uma imagem de referência.", none⟩
  else if mode = .restore ∧ referenceImage = none then
    ⟨[], 0, [], some "Por favor, envie uma foto para ser restaurada.", none⟩
  else
    match referenceImage with
    | none => ⟨[], 0, [], none, none⟩
    | some f =>
      let base := optimizedPrompt mode prompt
      let total := candidateCount
      match fileToBase64_v2 f with
      | .error e =>
          ⟨[], 0, [.encode],
            some ("Ocorreu um erro CRÍTICO: " ++ e ++ ". O processo foi interrompido."), none⟩
      | .ok enc =>
        let r := genLoopV2 O base enc total (total * 2) 0 [] []
        ⟨r.images, r.attempts, .encode :: r.events, r.critical, none⟩

/-! ## Transport wrapper lemmas -/

/-- An attempt whose response is not a 2xx success (timeouts and network
errors included) never returns from the try block: it either continues the
loop via the 429 branch or throws into the wrapper's catch. -/
lemma tryStep_not_success (retries i : Nat) (r : NetResult)
    (h : ∀ s b, r = .resp s b → statusOk s = false) :
    tryStep retries i r = .retry429 ∨ ∃ e, tryStep retries i r = .thrown e := by
  cases r with
  | resp s b =>
    have hs := h s b rfl
    by_cases h429 : s = 429 ∧ i < retries - 1
    · left
      simp [tryStep, h429]
    · right
      by_cases h413 : s = 413
      · exact ⟨.payloadTooLarge, by simp [tryStep, h429, h413]⟩
      · by_cases h504 : s = 504
        · exact ⟨.invocationTimeout, by simp [tryStep, h429, h413, h504]⟩
        · exact ⟨.apiError s b, by simp [tryStep, h429, h413, h504, hs]⟩
  | abort => exact Or.inr ⟨.abortError, rfl⟩
  | netErr n m => exact Or.inr ⟨.fetchError n m, rfl⟩

/-- One failed (non-success) attempt at a non-final index of the jsx loop:
it issues its request, waits (with jitter on the 429 branch, without on the
catch branch), and the loop proceeds to the next attempt. -/
lemma fetchLoop_step (script : Nat → NetResult) (jitter : Nat → Nat) (retries i : Nat)
    (hi : i + 1 < retries)
    (hns : ∀ s b, script i = .resp s b → statusOk s = false) :
    ∃ w, fetchLoop script jitter retries (retries - i) i =
      ((fetchLoop script jitter retries (retries - (i + 1)) (i + 1)).1,
        .request i :: .wait w ::
          (fetchLoop script jitter retries (retries - (i + 1)) (i + 1)).2) := by
  have hfuel : retries - i = (retries - (i + 1)) + 1 := by omega
  have hlt : i < retries := by omega
  have hnl : ¬(i = retries - 1) := by omega
  rcases tryStep_not_success retries i (script i) hns with hts | ⟨e, hts⟩
  · exact ⟨2 ^ i * 1000 + jitter i, by rw [hfuel]; simp [fetchLoop, hlt, hts]⟩
  · exact ⟨2 ^ i * 1000, by rw [hfuel]; simp [fetchLoop, hlt, hts, hnl]⟩

/-- The jsx loop reaches attempt `i` exactly when every earlier attempt
fails; the events already emitted contain one request per failed attempt. -/
lemma fetchLoop_reach (script : Nat → NetResult) (jitter : Nat → Nat) (retries : Nat) :
    ∀ i, i < retries →
    (∀ k, k < i → ∀ s b, script k = .resp s b → statusOk s = false) →
    ∃ pre, (fetchLoop script jitter retries retries 0).1 =
        (fetchLoop script jitter retries (retries - i) i).1
      ∧ (fetchLoop script jitter retries retries 0).2 =
          pre ++ (fetchLoop script jitter retries (retries - i) i).2
      ∧ pre.countP isRequestEv = i := by
  intro i
  induction i with
  | zero =>
    intro _ _
    exact ⟨[], by simp, by simp, rfl⟩
  | succ i ih =>
    intro hi hpre
    obtain ⟨pre, h1, h2, h3⟩ := ih (by omega) (fun k hk => hpre k (by omega))
    obtain ⟨w, hstep⟩ := fetchLoop_step script jitter retries i hi (hpre i (by omega))
    refine ⟨pre ++ [.request i, .wait w], ?_, ?_, ?_⟩
    · rw [h1, hstep]
    · rw [h2, hstep]
      simp
    · rw [List.countP_append, h3]
      simp [List.countP_cons, isRequestEv]

/-- One failed (non-success) attempt at a non-final index of the part_001
loop: it issues its request (waiting only on the 429 branch — its catch has
no backoff) and the loop proceeds to the next attempt. -/
lemma fetchLoopV2_step (script : Nat → NetResult) (jitter : Nat → Nat) (retries i : Nat)
    (hi : i + 1 < retries)
    (hns : ∀ s b, script i = .resp s b → statusOk s = false) :
    ∃ mid, fetchLoopV2 script jitter retries (retries - i) i =
      ((fetchLoopV2 script jitter retries (retries - (i + 1)) (i + 1)).1,
        .request i :: (mid ++
          (fetchLoopV2 script jitter retries (retries - (i + 1)) (i + 1)).2))
      ∧ mid.countP isRequestEv = 0 := by
  have hfuel : retries - i = (retries - (i + 1)) + 1 := by omega
  have hlt : i < retries := by omega
  have hnl : ¬(i = retries - 1) := by omega
  cases hsc : script i with
  | resp s b =>
    have hs := hns s b hsc
    by_cases h429 : s = 429 ∧ i < retries - 1
    · refine ⟨[.wait (2 ^ i * 1000 + jitter i)], ?_, by simp [List.countP_cons, isRequestEv]⟩
      rw [hfuel]
      simp [fetchLoopV2, hlt, hsc, h429]
    · refine ⟨[], ?_, rfl⟩
      rw [hfuel]
      simp [fetchLoopV2, hlt, hsc, h429, hs, hnl]
  | abort =>
    refine ⟨[], ?_, rfl⟩
    rw [hfuel]
    simp [fetchLoopV2, hlt, hsc, hnl]
  | netErr n m =>
    refine ⟨[], ?_, rfl⟩
    rw [hfuel]
    simp [fetchLoopV2, hlt, hsc, hnl]

/-- The part_001 loop reaches attempt `i` exactly when every earlier attempt
fails; the events already emitted contain one request per failed attempt. -/
lemma fetchLoopV2_reach (script : Nat → NetResult) (jitter : Nat → Nat) (retries : Nat) :
    ∀ i, i < retries →
    (∀ k, k < i → ∀ s b, script k = .resp s b → statusOk s = false) →
    ∃ pre, (fetchLoopV2 script jitter retries retries 0).1 =
        (fetchLoopV2 script jitter retries (retries - i) i).1
      ∧ (fetchLoopV2 script jitter retries retries 0).2 =
          pre ++ (fetchLoopV2 script jitter retries (retries - i) i).2
      ∧ pre.countP isRequestEv = i := by
  intro i
  induction i with
  | zero =>
    intro _ _
    exact ⟨[], by simp, by simp, rfl⟩
  | succ i ih =>
    intro hi hpre
    obtain ⟨pre, h1, h2, h3⟩ := ih (by omega) (fun k hk => hpre k (by omega))
    obtain ⟨mid, hstep, hmid⟩ := fetchLoopV2_step script jitter retries i hi (hpre i (by omega))
    refine ⟨pre ++ (.request i :: mid), ?_, ?_, ?_⟩
    · rw [h1, hstep]
    · rw [h2, hstep]
      simp
    · rw [List.countP_append, h3, List.countP_cons]
      simp [isRequestEv, hmid]

/-! ## Claims C2, C3, C4 (transport wrapper) -/

/-- C2: the claim says a first-attempt HTTP 413 makes fetchWithRetry fail
immediately with the PayloadTooLarge classification and issue no second
request.  The code (src/ImageStudio.jsx lines 46-48, 60-71) instead throws
FUNCTION_PAYLOAD_TOO_LARGE inside its own try block, catches it, waits 1s
and issues a second request: with the default budget of 3, a 413 followed
by a 200 produces a returned 200 after two requests, and only an all-413
run propagates PayloadTooLarge (after three requests).  This theorem
evaluates the embedded wrapper at both failing inputs. -/
theorem c2_413_first_attempt_is_retried_eval :
    fetchWithRetry (fun k => if k = 0 then .resp 413 "" else .resp 200 "ok") (fun _ => 0) =
      (.ok 200 "ok", [.request 0, .wait 1000, .request 1])
    ∧ (fetchWithRetry (fun k => if k = 0 then .resp 413 "" else .resp 200 "ok")
        (fun _ => 0)).2.countP isRequestEv = 2
    ∧ fetchWithRetry (fun _ => .resp 413 "") (fun _ => 0) =
      (.thrown .payloadTooLarge,
        [.request 0, .wait 1000, .request 1, .wait 2000, .request 2]) := by
  refine ⟨?_, ?_, ?_⟩ <;> decide

/-- C3: for every transport-wrapper call in which the loop reaches some
attempt `i` (every earlier attempt failed), attempt `i` receives an HTTP 429
with retry budget left, and attempt `i + 1` receives an HTTP 200, the
wrapper waits exactly base * 2^i plus the drawn jitter after the 429,
retries, and returns the 200 with no failure surfaced; and for every call
whose final allowed attempt receives a 429 (every earlier attempt failed),
the wrapper propagates the failure — the generic API error carrying status
429 — after exactly `retries` requests, so the final 429 is never retried.
Both wrapper variants. -/
theorem c3_429_backoff_retry_and_final_failure
    (jitter : Nat → Nat) (retries i : Nat) (s1 s2 : Nat → NetResult)
    (b b2 body : String)
    (hi : i + 1 < retries)
    (hpre : ∀ k, k < i → ∀ s bb, s1 k = .resp s bb → statusOk s = false)
    (h429 : s1 i = .resp 429 b) (h200 : s1 (i + 1) = .resp 200 body)
    (hpre2 : ∀ k, k < retries - 1 → ∀ s bb, s2 k = .resp s bb → statusOk s = false)
    (hlast : s2 (retries - 1) = .resp 429 b2) :
    ((fetchWithRetry s1 jitter retries).1 = .ok 200 body
      ∧ ∃ pre, (fetchWithRetry s1 jitter retries).2 =
          pre ++ [.request i, .wait (2 ^ i * 1000 + jitter i), .request (i + 1)]
        ∧ pre.countP isRequestEv = i)
    ∧ ((fetchWithRetry s2 jitter retries).1 = .thrown (.apiError 429 b2)
      ∧ (fetchWithRetry s2 jitter retries).2.countP isRequestEv = retries)
    ∧ ((fetchWithRetry_v2 s1 jitter retries).1 = .ok 200 body
      ∧ ∃ pre, (fetchWithRetry_v2 s1 jitter retries).2 =
          pre ++ [.request i, .wait (2 ^ i * 1000 + jitter i), .request (i + 1)]
        ∧ pre.countP isRequestEv = i)
    ∧ ((fetchWithRetry_v2 s2 jitter retries).1 = .thrown (.apiError 429 b2)
      ∧ (fetchWithRetry_v2 s2 jitter retries).2.countP isRequestEv = retries) := by
  have hts429 : tryStep retries i (s1 i) = .retry429 := by
    simp [tryStep, h429, (by omega : i < retries - 1)]
  have hts200 : tryStep retries (i + 1) (s1 (i + 1)) = .success 200 body := by
    simp [tryStep, h200, statusOk]
  have htslast : tryStep retries (retries - 1) (s2 (retries - 1)) =
      .thrown (.apiError 429 b2) := by
    simp [tryStep, hlast, statusOk]
  have heval1 : fetchLoop s1 jitter retries (retries - i) i =
      (.ok 200 body, [.request i, .wait (2 ^ i * 1000 + jitter i), .request (i + 1)]) := by
    have hfuel : retries - i = (retries - (i + 2)) + 1 + 1 := by omega
    rw [hfuel]
    simp [fetchLoop, (by omega : i < retries), (by omega : i + 1 < retries), hts429, hts200]
  have heval2 : fetchLoop s2 jitter retries (retries - (retries - 1)) (retries - 1) =
      (.thrown (.apiError 429 b2), [.request (retries - 1)]) := by
    have hfuel : retries - (retries - 1) = 0 + 1 := by omega
    rw [hfuel]
    simp [fetchLoop, (by omega : retries - 1 < retries), htslast]
  have heval3 : fetchLoopV2 s1 jitter retries (retries - i) i =
      (.ok 200 body, [.request i, .wait (2 ^ i * 1000 + jitter i), .request (i + 1)]) := by
    have hfuel : retries - i = (retries - (i + 2)) + 1 + 1 := by omega
    rw [hfuel]
    simp [fetchLoopV2, (by omega : i < retries), (by omega : i + 1 < retries),
      (by omega : i < retries - 1), h429, h200, statusOk]
  have heval4 : fetchLoopV2 s2 jitter retries (retries - (retries - 1)) (retries - 1) =
      (.thrown (.apiError 429 b2), [.request (retries - 1)]) := by
    have hfuel : retries - (retries - 1) = 0 + 1 := by omega
    rw [hfuel]
    simp [fetchLoopV2, (by omega : retries - 1 < retries), hlast, statusOk]
  obtain ⟨pre1, j1, j2, j3⟩ := fetchLoop_reach s1 jitter retries i (by omega) hpre
  obtain ⟨pre2, k1, k2, k3⟩ :=
    fetchLoop_reach s2 jitter retries (retries - 1) (by omega) hpre2
  obtain ⟨pre3, l1, l2, l3⟩ := fetchLoopV2_reach s1 jitter retries i (by omega) hpre
  obtain ⟨pre4, m1, m2, m3⟩ :=
    fetchLoopV2_reach s2 jitter retries (retries - 1) (by omega) hpre2
  refine ⟨⟨?_, pre1, ?_, j3⟩, ⟨?_, ?_⟩, ⟨?_, pre3, ?_, l3⟩, ⟨?_, ?_⟩⟩
  · show (fetchLoop s1 jitter retries retries 0).1 = _
    rw [j1, heval1]
  · show (fetchLoop s1 jitter retries retries 0).2 = _
    rw [j2, heval1]
  · show (fetchLoop s2 jitter retries retries 0).1 = _
    rw [k1, heval2]
  · show (fetchLoop s2 jitter retries retries 0).2.countP isRequestEv = retries
    rw [k2, heval2, List.countP_append, k3]
    simp [List.countP_cons, isRequestEv]
    omega
  · show (fetchLoopV2 s1 jitter retries retries 0).1 = _
    rw [l1, heval3]
  · show (fetchLoopV2 s1 jitter retries retries 0).2 = _
    rw [l2, heval3]
  · show (fetchLoopV2 s2 jitter retries retries 0).1 = _
    rw [m1, heval4]
  · show (fetchLoopV2 s2 jitter retries retries 0).2.countP isRequestEv = retries
    rw [m2, heval4, List.countP_append, m3]
    simp [List.countP_cons, isRequestEv]
    omega

/-- Witness for C3 at a concrete input with the 429 beyond the first
attempt: budget 3, first script (500, 429, 200) — so the jittered
exponential wait 2^1 * 1000 + jitter is exhibited at attempt index 1 —
second script all-429. -/
theorem c3_429_backoff_retry_and_final_failure_witness :
    ((fetchWithRetry (fun k => if k = 0 then NetResult.resp 500 "e"
        else if k = 1 then .resp 429 "b" else .resp 200 "body") (fun _ => 7) 3).1 =
        .ok 200 "body"
      ∧ ∃ pre, (fetchWithRetry (fun k => if k = 0 then NetResult.resp 500 "e"
          else if k = 1 then .resp 429 "b" else .resp 200 "body") (fun _ => 7) 3).2 =
          pre ++ [.request 1, .wait (2 ^ 1 * 1000 + 7), .request 2]
        ∧ pre.countP isRequestEv = 1)
    ∧ ((fetchWithRetry (fun _ => NetResult.resp 429 "b") (fun _ => 7) 3).1 =
        .thrown (.apiError 429 "b")
      ∧ (fetchWithRetry (fun _ => NetResult.resp 429 "b") (fun _ => 7) 3).2.countP
          isRequestEv = 3)
    ∧ ((fetchWithRetry_v2 (fun k => if k = 0 then NetResult.resp 500 "e"
        else if k = 1 then .resp 429 "b" else .resp 200 "body") (fun _ => 7) 3).1 =
        .ok 200 "body"
      ∧ ∃ pre, (fetchWithRetry_v2 (fun k => if k = 0 then NetResult.resp 500 "e"
          else if k = 1 then .resp 429 "b" else .resp 200 "body") (fun _ => 7) 3).2 =
          pre ++ [.request 1, .wait (2 ^ 1 * 1000 + 7), .request 2]
        ∧ pre.countP isRequestEv = 1)
    ∧ ((fetchWithRetry_v2 (fun _ => NetResult.resp 429 "b") (fun _ => 7) 3).1 =
        .thrown (.apiError 429 "b")
      ∧ (fetchWithRetry_v2 (fun _ => NetResult.resp 429 "b") (fun _ => 7) 3).2.countP
          isRequestEv = 3) :=
  c3_429_backoff_retry_and_final_failure (fun _ => 7) 3 1
    (fun k => if k = 0 then NetResult.resp 500 "e"
      else if k = 1 then .resp 429 "b" else .resp 200 "body")
    (fun _ => NetResult.resp 429 "b") "b" "b" "body"
    (by omega)
    (by
      intro k hk s bb hsb
      have hk0 : k = 0 := by omega
      subst hk0
      have hsb2 : NetResult.resp 500 "e" = NetResult.resp s bb := hsb
      rw [NetResult.resp.injEq] at hsb2
      rw [← hsb2.1]
      decide)
    rfl rfl
    (by
      intro k hk s bb hsb
      rw [NetResult.resp.injEq] at hsb
      rw [← hsb.1]
      decide)
    rfl

/-- C4 counterexample: with the default budget of 3, a first-attempt HTTP
504 followed by a 200 makes the jsx fetchWithRetry issue a second request
and return the 200 — the call neither fails with the Timeout classification
nor stops at one request, refuting the claim that the wrapper itself never
internally retries a 504. -/
theorem c4_504_internally_retried_counterexample :
    fetchWithRetry (fun k => if k = 0 then .resp 504 "" else .resp 200 "ok") (fun _ => 0) =
      (.ok 200 "ok", [.request 0, .wait 1000, .request 1])
    ∧ (fetchWithRetry (fun k => if k = 0 then .resp 504 "" else .resp 200 "ok")
        (fun _ => 0)).2.countP isRequestEv = 2
    ∧ (fetchWithRetry (fun k => if k = 0 then .resp 504 "" else .resp 200 "ok")
        (fun _ => 0)).1 ≠ .thrown .invocationTimeout := by
  refine ⟨?_, ?_, ?_⟩ <;> decide

/-- C4 amended: on HTTP 504 the jsx wrapper throws the Timeout-classified
FUNCTION_INVOCATION_TIMEOUT error, but the throw is caught by the wrapper's
own catch: on a non-final attempt it waits base * 2^attempt (no jitter) and
internally retries, and only when every attempt of the budget yields a 504
does the call fail, with the Timeout classification.  The part_001 wrapper
has no 504 case at all: it retries a non-final 504 immediately (no wait)
and an all-504 run fails with the generic API-error classification carrying
status 504, not a Timeout. -/
theorem c4_amended_504_caught_and_retried
    (jitter : Nat → Nat) (s1 s2 : Nat → NetResult) (b0 body : String) (B : Nat → String)
    (h0 : s1 0 = .resp 504 b0) (h1 : s1 1 = .resp 200 body)
    (hall : ∀ k, k < 3 → s2 k = .resp 504 (B k)) :
    fetchWithRetry s1 jitter = (.ok 200 body, [.request 0, .wait 1000, .request 1])
    ∧ fetchWithRetry s2 jitter =
      (.thrown .invocationTimeout,
        [.request 0, .wait 1000, .request 1, .wait 2000, .request 2])
    ∧ fetchWithRetry_v2 s1 jitter = (.ok 200 body, [.request 0, .request 1])
    ∧ fetchWithRetry_v2 s2 jitter =
      (.thrown (.apiError 504 (B 2)), [.request 0, .request 1, .request 2]) := by
  have e0 := hall 0 (by omega)
  have e1 := hall 1 (by omega)
  have e2 := hall 2 (by omega)
  have t0 : tryStep 3 0 (s1 0) = .thrown .invocationTimeout := by
    simp [tryStep, h0, statusOk]
  have t1 : tryStep 3 1 (s1 1) = .success 200 body := by
    simp [tryStep, h1, statusOk]
  have u0 : tryStep 3 0 (s2 0) = .thrown .invocationTimeout := by
    simp [tryStep, e0, statusOk]
  have u1 : tryStep 3 1 (s2 1) = .thrown .invocationTimeout := by
    simp [tryStep, e1, statusOk]
  have u2 : tryStep 3 2 (s2 2) = .thrown .invocationTimeout := by
    simp [tryStep, e2, statusOk]
  refine ⟨?_, ?_, ?_, ?_⟩
  · norm_num [fetchWithRetry, MAX_RETRIES, fetchLoop, t0, t1]
  · norm_num [fetchWithRetry, MAX_RETRIES, fetchLoop, u0, u1, u2]
  · norm_num [fetchWithRetry_v2, fetchLoopV2, h0, h1, statusOk]
  · norm_num [fetchWithRetry_v2, fetchLoopV2, e0, e1, e2, statusOk]

/-- Witness for the amended C4 at a concrete input. -/
theorem c4_amended_504_caught_and_retried_witness :
    fetchWithRetry (fun k => if k = 0 then .resp 504 "x" else .resp 200 "ok") (fun _ => 5) =
      (.ok 200 "ok", [.request 0, .wait 1000, .request 1])
    ∧ fetchWithRetry (fun _ => .resp 504 "x") (fun _ => 5) =
      (.thrown .invocationTimeout,
        [.request 0, .wait 1000, .request 1, .wait 2000, .request 2])
    ∧ fetchWithRetry_v2 (fun k => if k = 0 then .resp 504 "x" else .resp 200 "ok")
        (fun _ => 5) = (.ok 200 "ok", [.request 0, .request 1])
    ∧ fetchWithRetry_v2 (fun _ => .resp 504 "x") (fun _ => 5) =
      (.thrown (.apiError 504 "x"), [.request 0, .request 1, .request 2]) :=
  c4_amended_504_caught_and_retried (fun _ => 5)
    (fun k => if k = 0 then .resp 504 "x" else .resp 200 "ok")
    (fun _ => .resp 504 "x") "x" "ok" (fun _ => "x")
    rfl rfl (fun _ _ => rfl)

/-! ## Generation loop lemmas -/

/-- Closed form of the jsx generation loop started in lockstep (`i` equals
the attempt counter, as in the actual call with both at 0): since the loop
advances `i` on every attempt, the budget guard `attemptCount < total * 2`
never binds and the loop performs exactly one attempt per variation index,
collecting the successful payloads in index order. -/
lemma genLoop_run (O : Nat → AttemptOutcome) (base enc : String) (total : Nat) :
    ∀ fuel i acc evs, fuel + i = total →
      genLoop O base enc total (total * 2) fuel i i acc evs =
        ⟨acc ++ (List.range' i fuel).filterMap (fun k => imgOf (O k)), total,
         evs ++ (List.range' i fuel).map
           (fun k => GEvent.attempt (k + 1) (jsxQuery base k) enc), none⟩ := by
  intro fuel
  induction fuel with
  | zero =>
    intro i acc evs hfi
    have hit : i = total := by omega
    subst hit
    simp [genLoop]
  | succ fuel ih =>
    intro i acc evs hfi
    have h1 : i < total := by omega
    have h2 : i < total * 2 := by omega
    cases hO : O i with
    | image d m =>
      simp only [genLoop, h1, h2, and_self, if_true, hO]
      rw [ih (i + 1) _ _ (by omega)]
      simp [List.range'_succ, imgOf, hO, List.append_assoc]
    | noImage r =>
      simp only [genLoop, h1, h2, and_self, if_true, hO]
      rw [ih (i + 1) _ _ (by omega)]
      simp [List.range'_succ, imgOf, hO, List.append_assoc]
    | transportError m =>
      simp only [genLoop, h1, h2, and_self, if_true, hO]
      rw [ih (i + 1) _ _ (by omega)]
      simp [List.range'_succ, imgOf, hO, List.append_assoc]

/-- Invariant of the part_001 generation loop: it performs some number `k`
of further attempts, appends exactly the successful payloads of attempts
`ac, ac+1, ...` in attempt order, never exceeds the `total * 2` attempt
budget nor `total` collected images, and only appends attempt events that
carry the single encoded payload. -/
lemma genLoopV2_run (O : Nat → AttemptOutcome) (base enc : String) (total : Nat) :
    ∀ fuel ac acc evs, ∃ k tail,
      (genLoopV2 O base enc total fuel ac acc evs).attempts = ac + k
      ∧ (genLoopV2 O base enc total fuel ac acc evs).images =
          acc ++ (List.range' ac k).filterMap (fun j => imgOf (O j))
      ∧ (ac ≤ total * 2 → (genLoopV2 O base enc total fuel ac acc evs).attempts ≤ total * 2)
      ∧ (acc.length ≤ total → (genLoopV2 O base enc total fuel ac acc evs).images.length ≤ total)
      ∧ (genLoopV2 O base enc total fuel ac acc evs).events = evs ++ tail
      ∧ ∀ e ∈ tail, ∃ i q, e = GEvent.attempt i q enc := by
  intro fuel
  induction fuel with
  | zero =>
    intro ac acc evs
    refine ⟨0, [], ?_⟩
    simp [genLoopV2]
  | succ fuel ih =>
    intro ac acc evs
    by_cases hg : acc.length < total ∧ ac < total * 2
    · cases hO : O ac with
      | image d m =>
        have hstep : genLoopV2 O base enc total (fuel + 1) ac acc evs =
            genLoopV2 O base enc total fuel (ac + 1) (acc ++ [mkDataUrl m d])
              (evs ++ [GEvent.attempt (acc.length + 1)
                (v2Query base (acc.length + 1) (ac + 1)) enc]) := by
          simp [genLoopV2, hg.1, hg.2, hO]
        obtain ⟨k, tail, ha, hi, hb, hl, he, ht⟩ :=
          ih (ac + 1) (acc ++ [mkDataUrl m d])
            (evs ++ [GEvent.attempt (acc.length + 1)
              (v2Query base (acc.length + 1) (ac + 1)) enc])
        refine ⟨k + 1,
          GEvent.attempt (acc.length + 1) (v2Query base (acc.length + 1) (ac + 1)) enc
            :: tail, ?_, ?_, ?_, ?_, ?_, ?_⟩
        · rw [hstep, ha]
          omega
        · rw [hstep, hi]
          simp [List.range'_succ, imgOf, hO, List.append_assoc]
        · intro hac
          rw [hstep]
          exact hb (by omega)
        · intro hlen
          rw [hstep]
          refine hl ?_
          have := hg.1
          simp
          omega
        · rw [hstep, he]
          simp
        · intro e hmem
          rw [List.mem_cons] at hmem
          rcases hmem with rfl | hmem
          · exact ⟨_, _, rfl⟩
          · exact ht e hmem
      | noImage r =>
        have hstep : genLoopV2 O base enc total (fuel + 1) ac acc evs =
            genLoopV2 O base enc total fuel (ac + 1) acc
              (evs ++ [GEvent.attempt (acc.length + 1)
                (v2Query base (acc.length + 1) (ac + 1)) enc]) := by
          simp [genLoopV2, hg.1, hg.2, hO]
        obtain ⟨k, tail, ha, hi, hb, hl, he, ht⟩ :=
          ih (ac + 1) acc
            (evs ++ [GEvent.attempt (acc.length + 1)
              (v2Query base (acc.length + 1) (ac + 1)) enc])
        refine ⟨k + 1,
          GEvent.attempt (acc.length + 1) (v2Query base (acc.length + 1) (ac + 1)) enc
            :: tail, ?_, ?_, ?_, ?_, ?_, ?_⟩
        · rw [hstep, ha]
          omega
        · rw [hstep, hi]
          simp [List.range'_succ, imgOf, hO]
        · intro hac
          rw [hstep]
          exact hb (by omega)
        · intro hlen
          rw [hstep]
          exact hl hlen
        · rw [hstep, he]
          simp
        · intro e hmem
          rw [List.mem_cons] at hmem
          rcases hmem with rfl | hmem
          · exact ⟨_, _, rfl⟩
          · exact ht e hmem
      | transportError m =>
        have hstep : genLoopV2 O base enc total (fuel + 1) ac acc evs =
            ⟨acc, ac + 1,
              evs ++ [GEvent.attempt (acc.length + 1)
                (v2Query base (acc.length + 1) (ac + 1)) enc],
              some ("Ocorreu um erro CRÍTICO: " ++ m ++ ". O processo foi interrompido.")⟩ := by
          simp [genLoopV2, hg.1, hg.2, hO]
        refine ⟨1,
          [GEvent.attempt (acc.length + 1) (v2Query base (acc.length + 1) (ac + 1)) enc],
          ?_, ?_, ?_, ?_, ?_, ?_⟩
        · rw [hstep]
        · rw [hstep]
          simp [List.range'_succ, imgOf, hO]
        · intro hac
          rw [hstep]
          have := hg.2
          simp
          omega
        · intro hlen
          rw [hstep]
          simpa using hlen
        · rw [hstep]
        · intro e hmem
          rw [List.mem_singleton] at hmem
          subst hmem
          exact ⟨_, _, rfl⟩
    · refine ⟨0, [], ?_⟩
      simp [genLoopV2, hg]

/-! ## handleGenerate characterizations -/

/-- The jsx orchestrator either stops before the loop (failed validation or
rejected encode: no attempts, no images) or performs exactly `min cc 3`
attempts and collects the successful payloads in attempt-index order. -/
lemma handleGenerate_attempts_images (f : JsFile) (mode : Mode)
    (prompt elapsed : String) (cc : Nat) (O : Nat → AttemptOutcome) :
    ((handleGenerate (some f) mode prompt cc O elapsed).attempts = 0
      ∧ (handleGenerate (some f) mode prompt cc O elapsed).images = [])
    ∨ ((handleGenerate (some f) mode prompt cc O elapsed).attempts = min cc 3
      ∧ (handleGenerate (some f) mode prompt cc O elapsed).images =
          (List.range (min cc 3)).filterMap (fun k => imgOf (O k))) := by
  by_cases hval : mode = Mode.generate ∧ prompt.trim = ""
  · left
    simp [handleGenerate, hval]
  · cases hfb : fileToBase64 f with
    | error e =>
      left
      simp [handleGenerate, hval, hfb]
    | ok enc =>
      right
      have hrun := genLoop_run O (optimizedPrompt mode prompt) enc (min cc 3)
        (min cc 3) 0 [] [] (by omega)
      simp only [handleGenerate, hval, false_and, and_false, if_false, hfb,
        List.range_eq_range']
      rw [hrun]
      split <;> simp

/-- Closed form of the jsx orchestrator when validation passes and the file
is within the size limit. -/
lemma handleGenerate_closed (f : JsFile) (mode : Mode) (prompt elapsed : String)
    (cc : Nat) (O : Nat → AttemptOutcome)
    (hv : ¬(mode = Mode.generate ∧ prompt.trim = ""))
    (hsz : f.size ≤ MAX_IMAGE_SIZE) :
    handleGenerate (some f) mode prompt cc O elapsed =
      (let enc := afterComma (readAsDataURL f)
       let total := min cc 3
       let imgs := (List.range total).filterMap (fun k => imgOf (O k))
       let evs := GEvent.encode :: (List.range' 0 total).map
         (fun k => GEvent.attempt (k + 1) (jsxQuery (optimizedPrompt mode prompt) k) enc)
       if imgs.length > 0 then
         ⟨imgs, total, evs, none,
           some ("Sucesso! " ++ toString imgs.length ++
             " imagem(ns) gerada(s) em " ++ elapsed ++ "s")⟩
       else
         ⟨imgs, total, evs,
           some "Não foi possível gerar nenhuma imagem. Tente com parâmetros diferentes.",
           none⟩) := by
  have hfb : fileToBase64 f = .ok (afterComma (readAsDataURL f)) := by
    unfold fileToBase64
    rw [if_neg (by omega)]
  have hrun := genLoop_run O (optimizedPrompt mode prompt)
    (afterComma (readAsDataURL f)) (min cc 3) (min cc 3) 0 [] [] (by omega)
  simp only [handleGenerate, hv, if_false, hfb, List.range_eq_range']
  rw [hrun]
  split <;> split <;> simp_all

/-- The part_001 orchestrator, when validation passes, encodes once and runs
its while loop with the full attempt budget. -/
lemma handleGenerate_v2_main (f : JsFile) (mode : Mode) (prompt : String)
    (cc : Nat) (O2 : Nat → AttemptOutcome)
    (hv : ¬(mode = Mode.generate ∧ prompt = "")) :
    handleGenerate_v2 (some f) mode prompt cc O2 =
      (let r := genLoopV2 O2 (optimizedPrompt mode prompt)
        (afterComma (readAsDataURL f)) cc (cc * 2) 0 [] []
       ⟨r.images, r.attempts, .encode :: r.events, r.critical, none⟩) := by
  simp [handleGenerate_v2, hv, fileToBase64_v2]

/-! ## Claim C1 -/

/-- C1: for every targetCount in [1,3] and every sequence of per-attempt
outcomes, both orchestrator variants issue at most 2 * targetCount attempts,
accumulate at most targetCount successful images, and the result sequence is
exactly the successful payloads of the issued attempts in attempt-index
order (failed attempts are skipped without reordering): the images are the
filterMap of the per-attempt image extraction over the attempt indices. -/
theorem c1_attempt_budget_and_order (f : JsFile) (mode : Mode)
    (prompt elapsed : String) (cc : Nat) (O O2 : Nat → AttemptOutcome)
    (hcc1 : 1 ≤ cc) (hcc3 : cc ≤ 3) :
    ((handleGenerate (some f) mode prompt cc O elapsed).attempts ≤ 2 * cc
      ∧ (handleGenerate (some f) mode prompt cc O elapsed).images.length ≤ cc
      ∧ (handleGenerate (some f) mode prompt cc O elapsed).images =
          (List.range ((handleGenerate (some f) mode prompt cc O elapsed).attempts)).filterMap
            (fun k => imgOf (O k)))
    ∧ ((handleGenerate_v2 (some f) mode prompt cc O2).attempts ≤ 2 * cc
      ∧ (handleGenerate_v2 (some f) mode prompt cc O2).images.length ≤ cc
      ∧ (handleGenerate_v2 (some f) mode prompt cc O2).images =
          (List.range ((handleGenerate_v2 (some f) mode prompt cc O2).attempts)).filterMap
            (fun k => imgOf (O2 k))) := by
  constructor
  · rcases handleGenerate_attempts_images f mode prompt elapsed cc O with ⟨ha, hi⟩ | ⟨ha, hi⟩
    · rw [ha, hi]
      simp
    · rw [ha, hi]
      refine ⟨by omega, ?_, rfl⟩
      calc ((List.range (min cc 3)).filterMap fun k => imgOf (O k)).length
          ≤ (List.range (min cc 3)).length := List.length_filterMap_le _ _
        _ = min cc 3 := List.length_range _
        _ ≤ cc := by omega
  · by_cases hv1 : mode = Mode.generate ∧ prompt = ""
    · simp [handleGenerate_v2, hv1]
    · obtain ⟨k, tail, ha, hi, hb, hl, he, ht⟩ :=
        genLoopV2_run O2 (optimizedPrompt mode prompt)
          (afterComma (readAsDataURL f)) cc (cc * 2) 0 [] []
    
      rw [handleGenerate_v2_main f mode prompt cc O2 hv1]
      refine ⟨?_, ?_, ?_⟩
      · have := hb (by omega)
        simpa using by omega
      · have := hl (by simp)
        simpa using this
      · simp only []
        rw [hi, ha]
        simp [List.range_eq_range']

/-- Witness for C1 at a concrete input (targetCount 2). -/
theorem c1_attempt_budget_and_order_witness :
    ((handleGenerate (some ⟨3, "image/png", [1, 2, 3]⟩) .generate "p" 2
        (fun _ => .noImage "x") "1.0").attempts ≤ 2 * 2
      ∧ (handleGenerate (some ⟨3, "image/png", [1, 2, 3]⟩) .generate "p" 2
          (fun _ => .noImage "x") "1.0").images.length ≤ 2
      ∧ (handleGenerate (some ⟨3, "image/png", [1, 2, 3]⟩) .generate "p" 2
          (fun _ => .noImage "x") "1.0").images =
          (List.range ((handleGenerate (some ⟨3, "image/png", [1, 2, 3]⟩) .generate "p" 2
            (fun _ => .noImage "x") "1.0").attempts)).filterMap
            (fun k => imgOf ((fun _ => AttemptOutcome.noImage "x") k)))
    ∧ ((handleGenerate_v2 (some ⟨3, "image/png", [1, 2, 3]⟩) .generate "p" 2
        (fun _ => .noImage "y")).attempts ≤ 2 * 2
      ∧ (handleGenerate_v2 (some ⟨3, "image/png", [1, 2, 3]⟩) .generate "p" 2
          (fun _ => .noImage "y")).images.length ≤ 2
      ∧ (handleGenerate_v2 (some ⟨3, "image/png", [1, 2, 3]⟩) .generate "p" 2
          (fun _ => .noImage "y")).images =
          (List.range ((handleGenerate_v2 (some ⟨3, "image/png", [1, 2, 3]⟩) .generate "p" 2
            (fun _ => .noImage "y")).attempts)).filterMap
            (fun k => imgOf ((fun _ => AttemptOutcome.noImage "y") k))) :=
  c1_attempt_budget_and_order ⟨3, "image/png", [1, 2, 3]⟩ .generate "p" "1.0" 2
    (fun _ => .noImage "x") (fun _ => .noImage "y") (by omega) (by omega)

/-! ## Claim C5 -/

/-- The jsx generation loop depends on each attempt outcome only through the
image payload it contributes: attempts whose extraction is `none` (classified
failures and caught transport errors alike) are handled identically. -/
lemma genLoop_congr (O O2 : Nat → AttemptOutcome) (base enc : String)
    (total maxT : Nat) (h : ∀ k, imgOf (O k) = imgOf (O2 k)) :
    ∀ fuel i ac acc evs,
      genLoop O base enc total maxT fuel i ac acc evs =
        genLoop O2 base enc total maxT fuel i ac acc evs := by
  intro fuel
  induction fuel with
  | zero => intro i ac acc evs; rfl
  | succ fuel ih =>
    intro i ac acc evs
    by_cases hg : i < total ∧ ac < maxT
    · have hk := h i
      cases hO : O i with
      | image d m =>
        cases hO2 : O2 i with
        | image d2 m2 =>
          rw [hO, hO2] at hk
          simp only [imgOf, Option.some.injEq] at hk
          simp [genLoop, hg.1, hg.2, hO, hO2, hk, ih]
        | noImage r2 =>
          rw [hO, hO2] at hk
          simp [imgOf] at hk
        | transportError m2 =>
          rw [hO, hO2] at hk
          simp [imgOf] at hk
      | noImage r =>
        cases hO2 : O2 i with
        | image d2 m2 =>
          rw [hO, hO2] at hk
          simp [imgOf] at hk
        | noImage r2 => simp [genLoop, hg.1, hg.2, hO, hO2, ih]
        | transportError m2 => simp [genLoop, hg.1, hg.2, hO, hO2, ih]
      | transportError m =>
        cases hO2 : O2 i with
        | image d2 m2 =>
          rw [hO, hO2] at hk
          simp [imgOf] at hk
        | noImage r2 => simp [genLoop, hg.1, hg.2, hO, hO2, ih]
        | transportError m2 => simp [genLoop, hg.1, hg.2, hO, hO2, ih]
    · simp [genLoop, hg]

/-- C5 counterexample: in the part_001 orchestrator a transport throw at the
first attempt is NOT caught at the attempt boundary: the session aborts with
the critical error of line 420 after a single attempt (budget 6, target 3),
so the loop does not continue to the next attempt. -/
theorem c5_v2_transport_error_aborts_session_counterexample :
    (handleGenerate_v2 (some ⟨3, "image/png", [1, 2, 3]⟩) .generate "p" 3
      (fun _ => .transportError "Erro na API: 500 - x")).attempts = 1
    ∧ (handleGenerate_v2 (some ⟨3, "image/png", [1, 2, 3]⟩) .generate "p" 3
        (fun _ => .transportError "Erro na API: 500 - x")).images = []
    ∧ (handleGenerate_v2 (some ⟨3, "image/png", [1, 2, 3]⟩) .generate "p" 3
        (fun _ => .transportError "Erro na API: 500 - x")).error =
        some "Ocorreu um erro CRÍTICO: Erro na API: 500 - x. O processo foi interrompido." := by
  refine ⟨?_, ?_, ?_⟩ <;> decide

/-- C5 amended: in the ImageStudio.jsx orchestrator (only), a transport
throw is caught at the attempt boundary and treated exactly like a
classified attempt failure: the whole session output is invariant under
replacing any attempt outcomes as long as the extracted image payloads
agree — in particular a caught transport error behaves identically to a
NoImage classification, the loop continues, accumulated results are kept
and the session is never aborted.  The part_001 variant instead aborts the
session on a transport throw. -/
theorem c5_amended_transport_error_treated_as_attempt_failure
    (f : JsFile) (mode : Mode) (prompt elapsed : String) (cc : Nat)
    (O O2 : Nat → AttemptOutcome) (h : ∀ k, imgOf (O k) = imgOf (O2 k)) :
    handleGenerate (some f) mode prompt cc O elapsed =
      handleGenerate (some f) mode prompt cc O2 elapsed := by
  by_cases hval : mode = Mode.generate ∧ prompt.trim = ""
  · simp [handleGenerate, hval]
  · cases hfb : fileToBase64 f with
    | error e => simp [handleGenerate, hval, hfb]
    | ok enc =>
      have hcong := genLoop_congr O O2 (optimizedPrompt mode prompt) enc
        (min cc 3) (min cc 3 * 2) h (min cc 3) 0 0 [] []
      simp [handleGenerate, hval, hfb, hcong]

/-- Witness for the amended C5: a transport error at attempt 1 produces the
same session output as a NoImage classification there. -/
theorem c5_amended_transport_error_treated_as_attempt_failure_witness :
    handleGenerate (some ⟨3, "image/png", [1, 2, 3]⟩) .generate "p" 2
      (fun k => if k = 0 then .transportError "boom" else .image "D" none) "1.0" =
    handleGenerate (some ⟨3, "image/png", [1, 2, 3]⟩) .generate "p" 2
      (fun k => if k = 0 then .noImage "SAFETY" else .image "D" none) "1.0" :=
  c5_amended_transport_error_treated_as_attempt_failure
    ⟨3, "image/png", [1, 2, 3]⟩ .generate "p" "1.0" 2
    (fun k => if k = 0 then .transportError "boom" else .image "D" none)
    (fun k => if k = 0 then .noImage "SAFETY" else .image "D" none)
    (by
      intro k
      by_cases hk : k = 0 <;> simp [hk, imgOf])

/-! ## Claim C6 -/

/-- C6 counterexample: in the part_001 orchestrator a session in which every
attempt is classified NoImage ends with an empty result sequence but NO
failure signal at all — line 416 only clears the success message and no
error is set — so the session is not reported as a complete failure. -/
theorem c6_v2_all_failed_no_failure_signal_counterexample :
    (handleGenerate_v2 (some ⟨3, "image/png", [1, 2, 3]⟩) .generate "p" 3
      (fun _ => .noImage "SAFETY")).images = []
    ∧ (handleGenerate_v2 (some ⟨3, "image/png", [1, 2, 3]⟩) .generate "p" 3
        (fun _ => .noImage "SAFETY")).attempts = 6
    ∧ (handleGenerate_v2 (some ⟨3, "image/png", [1, 2, 3]⟩) .generate "p" 3
        (fun _ => .noImage "SAFETY")).error = none
    ∧ (handleGenerate_v2 (some ⟨3, "image/png", [1, 2, 3]⟩) .generate "p" 3
        (fun _ => .noImage "SAFETY")).successMsg = none := by
  refine ⟨?_, ?_, ?_, ?_⟩ <;> decide

/-- C6 amended: in the ImageStudio.jsx orchestrator (only), a session in
which no attempt yields an embedded image payload finishes with an empty
result sequence, sets the distinct complete-failure error message, and sets
no success message.  The part_001 variant ends such a session with no
failure signal. -/
theorem c6_amended_empty_result_reports_failure (f : JsFile) (mode : Mode)
    (prompt elapsed : String) (cc : Nat) (O : Nat → AttemptOutcome)
    (hv : ¬(mode = Mode.generate ∧ prompt.trim = ""))
    (hsz : f.size ≤ MAX_IMAGE_SIZE)
    (hnone : ∀ k, imgOf (O k) = none) :
    (handleGenerate (some f) mode prompt cc O elapsed).images = []
    ∧ (handleGenerate (some f) mode prompt cc O elapsed).error =
        some "Não foi possível gerar nenhuma imagem. Tente com parâmetros diferentes."
    ∧ (handleGenerate (some f) mode prompt cc O elapsed).successMsg = none := by
  rw [handleGenerate_closed f mode prompt elapsed cc O hv hsz]
  have himgs : (List.range (min cc 3)).filterMap (fun k => imgOf (O k)) = [] := by
    rw [List.filterMap_eq_nil_iff]
    intro a _
    exact hnone a
  simp [himgs]

/-- Witness for the amended C6: every attempt SafetyBlocked (a restoration
session, whose validation does not inspect the prompt). -/
theorem c6_amended_empty_result_reports_failure_witness :
    (handleGenerate (some ⟨3, "image/png", [1, 2, 3]⟩) .restore "p" 3
      (fun _ => .noImage "SAFETY") "1.0").images = []
    ∧ (handleGenerate (some ⟨3, "image/png", [1, 2, 3]⟩) .restore "p" 3
        (fun _ => .noImage "SAFETY") "1.0").error =
        some "Não foi possível gerar nenhuma imagem. Tente com parâmetros diferentes."
    ∧ (handleGenerate (some ⟨3, "image/png", [1, 2, 3]⟩) .restore "p" 3
        (fun _ => .noImage "SAFETY") "1.0").successMsg = none :=
  c6_amended_empty_result_reports_failure ⟨3, "image/png", [1, 2, 3]⟩ .restore "p" "1.0" 3
    (fun _ => .noImage "SAFETY")
    (by decide) (by decide) (fun _ => rfl)

/-! ## Claim C7 -/

/-- C7 counterexample: in the part_001 orchestrator, a session with
targetCount 3 whose attempts 1 and 2 are NoImage and whose attempt 3
succeeds does NOT terminate with the budget unexhausted: its while loop
keeps attempting until it has 3 successes or 6 attempts, so (with the later
attempts also NoImage) it exhausts the full budget of 6. -/
theorem c7_v2_budget_exhausted_counterexample :
    (handleGenerate_v2 (some ⟨3, "image/png", [1, 2, 3]⟩) .generate "p" 3
      (fun k => if k = 2 then .image "IMG" none else .noImage "NO_IMAGE")).attempts = 6
    ∧ (handleGenerate_v2 (some ⟨3, "image/png", [1, 2, 3]⟩) .generate "p" 3
        (fun k => if k = 2 then .image "IMG" none else .noImage "NO_IMAGE")).images.length
        = 1 := by
  refine ⟨?_, ?_⟩ <;> decide

/-- C7 amended: in the ImageStudio.jsx orchestrator (only), with a reference
image present, targetCount 3, attempts 1 and 2 classified NoImage and
attempt 3 successful, the session terminates after exactly 3 attempts —
the budget of 6 is not exhausted — and returns a result sequence of length
exactly 1.  The part_001 variant keeps attempting until 3 successes or 6
attempts. -/
theorem c7_amended_two_failures_one_success (f : JsFile) (mode : Mode)
    (prompt elapsed r1 r2 d : String) (m : Option String) (O : Nat → AttemptOutcome)
    (hv : ¬(mode = Mode.generate ∧ prompt.trim = ""))
    (hsz : f.size ≤ MAX_IMAGE_SIZE)
    (h0 : O 0 = .noImage r1) (h1 : O 1 = .noImage r2) (h2 : O 2 = .image d m) :
    (handleGenerate (some f) mode prompt 3 O elapsed).attempts = 3
    ∧ (handleGenerate (some f) mode prompt 3 O elapsed).attempts < 6
    ∧ (handleGenerate (some f) mode prompt 3 O elapsed).images.length = 1 := by
  rw [handleGenerate_closed f mode prompt elapsed 3 O hv hsz]
  have hr3 : List.range 3 = [0, 1, 2] := rfl
  have himgs : (List.range 3).filterMap (fun k => imgOf (O k)) =
      [mkDataUrl m d] := by
    rw [hr3]
    simp [imgOf, h0, h1, h2]
  simp [himgs]

/-- Witness for the amended C7 (a restoration session, whose validation
does not inspect the prompt). -/
theorem c7_amended_two_failures_one_success_witness :
    (handleGenerate (some ⟨3, "image/png", [1, 2, 3]⟩) .restore "p" 3
      (fun k => if k = 2 then .image "IMG" none else .noImage "NO_IMAGE") "1.0").attempts = 3
    ∧ (handleGenerate (some ⟨3, "image/png", [1, 2, 3]⟩) .restore "p" 3
        (fun k => if k = 2 then .image "IMG" none else .noImage "NO_IMAGE") "1.0").attempts < 6
    ∧ (handleGenerate (some ⟨3, "image/png", [1, 2, 3]⟩) .restore "p" 3
        (fun k => if k = 2 then .image "IMG" none else .noImage "NO_IMAGE") "1.0").images.length
        = 1 :=
  c7_amended_two_failures_one_success ⟨3, "image/png", [1, 2, 3]⟩ .restore "p" "1.0"
    "NO_IMAGE" "NO_IMAGE" "IMG" none
    (fun k => if k = 2 then .image "IMG" none else .noImage "NO_IMAGE")
    (by decide) (by decide) rfl rfl rfl

/-! ## Claim C8 -/

/-- C8: in every session that passes validation, both orchestrator variants
invoke fileToBase64 exactly once, before the attempt loop (the encode event
is the first event), and every attempt event carries exactly the single
encoded payload as its inlineData — even when the encode step itself
rejects (jsx), in which case no attempt is made. -/
theorem c8_encode_once_before_loop (f : JsFile) (mode : Mode)
    (prompt elapsed : String) (cc : Nat) (O O2 : Nat → AttemptOutcome)
    (hv : ¬(mode = Mode.generate ∧ prompt.trim = ""))
    (hv2 : ¬(mode = Mode.generate ∧ prompt = "")) :
    ((handleGenerate (some f) mode prompt cc O elapsed).events.countP isEncodeEv = 1
      ∧ (handleGenerate (some f) mode prompt cc O elapsed).events.head? = some .encode
      ∧ ∀ i q d, GEvent.attempt i q d ∈ (handleGenerate (some f) mode prompt cc O elapsed).events →
          fileToBase64 f = .ok d)
    ∧ ((handleGenerate_v2 (some f) mode prompt cc O2).events.countP isEncodeEv = 1
      ∧ (handleGenerate_v2 (some f) mode prompt cc O2).events.head? = some .encode
      ∧ ∀ i q d, GEvent.attempt i q d ∈ (handleGenerate_v2 (some f) mode prompt cc O2).events →
          fileToBase64_v2 f = .ok d) := by
  constructor
  · cases hfb : fileToBase64 f with
    | error e =>
      have hev : (handleGenerate (some f) mode prompt cc O elapsed).events = [.encode] := by
        simp [handleGenerate, hv, hfb]
      refine ⟨?_, ?_, ?_⟩
      · rw [hev]
        simp [List.countP_cons, isEncodeEv]
      · rw [hev]
        rfl
      · intro i q d hmem
        rw [hev] at hmem
        simp at hmem
    | ok enc =>
      have hrun := genLoop_run O (optimizedPrompt mode prompt) enc (min cc 3)
        (min cc 3) 0 [] [] (by omega)
      have hev : (handleGenerate (some f) mode prompt cc O elapsed).events =
          GEvent.encode :: (List.range' 0 (min cc 3)).map
            (fun k => GEvent.attempt (k + 1)
              (jsxQuery (optimizedPrompt mode prompt) k) enc) := by
        simp only [handleGenerate, hv, if_false, hfb]
        rw [hrun]
        split <;> simp
      refine ⟨?_, ?_, ?_⟩
      · rw [hev, List.countP_cons]
        have h0 : ((List.range' 0 (min cc 3)).map
            (fun k => GEvent.attempt (k + 1)
              (jsxQuery (optimizedPrompt mode prompt) k) enc)).countP isEncodeEv = 0 := by
          rw [List.countP_eq_zero]
          intro e he
          obtain ⟨a, _, rfl⟩ := List.mem_map.mp he
          simp [isEncodeEv]
        rw [h0]
        simp [isEncodeEv]
      · rw [hev]
        rfl
      · intro i q d hmem
        rw [hev, List.mem_cons] at hmem
        rcases hmem with hmem | hmem
        · simp at hmem
        · obtain ⟨a, _, heq⟩ := List.mem_map.mp hmem
          rw [GEvent.attempt.injEq] at heq
          rw [← heq.2.2]
  · obtain ⟨k, tail, ha, hi, hb, hl, he, ht⟩ :=
      genLoopV2_run O2 (optimizedPrompt mode prompt)
        (afterComma (readAsDataURL f)) cc (cc * 2) 0 [] []
    have hev2 : (handleGenerate_v2 (some f) mode prompt cc O2).events =
        GEvent.encode :: tail := by
      rw [handleGenerate_v2_main f mode prompt cc O2 hv2]
      simp only []
      rw [he]
      simp
    refine ⟨?_, ?_, ?_⟩
    · rw [hev2, List.countP_cons]
      have h0 : tail.countP isEncodeEv = 0 := by
        rw [List.countP_eq_zero]
        intro e he2
        obtain ⟨i, q, rfl⟩ := ht e he2
        simp [isEncodeEv]
      rw [h0]
      simp [isEncodeEv]
    · rw [hev2]
      rfl
    · intro i q d hmem
      rw [hev2, List.mem_cons] at hmem
      rcases hmem with hmem | hmem
      · simp at hmem
      · obtain ⟨i2, q2, heq⟩ := ht _ hmem
        rw [GEvent.attempt.injEq] at heq
        rw [heq.2.2]
        rfl

/-- Witness for C8 (a restoration session with one success and one
failure). -/
theorem c8_encode_once_before_loop_witness :
    ((handleGenerate (some ⟨3, "image/png", [1, 2, 3]⟩) .restore "p" 2
        (fun k => if k = 0 then .image "A" none else .noImage "x") "1.0").events.countP
        isEncodeEv = 1
      ∧ (handleGenerate (some ⟨3, "image/png", [1, 2, 3]⟩) .restore "p" 2
          (fun k => if k = 0 then .image "A" none else .noImage "x") "1.0").events.head? =
          some .encode
      ∧ ∀ i q d, GEvent.attempt i q d ∈
          (handleGenerate (some ⟨3, "image/png", [1, 2, 3]⟩) .restore "p" 2
            (fun k => if k = 0 then .image "A" none else .noImage "x") "1.0").events →
          fileToBase64 ⟨3, "image/png", [1, 2, 3]⟩ = .ok d)
    ∧ ((handleGenerate_v2 (some ⟨3, "image/png", [1, 2, 3]⟩) .restore "p" 2
        (fun k => if k = 0 then .image "A" none else .noImage "x")).events.countP
        isEncodeEv = 1
      ∧ (handleGenerate_v2 (some ⟨3, "image/png", [1, 2, 3]⟩) .restore "p" 2
          (fun k => if k = 0 then .image "A" none else .noImage "x")).events.head? =
          some .encode
      ∧ ∀ i q d, GEvent.attempt i q d ∈
          (handleGenerate_v2 (some ⟨3, "image/png", [1, 2, 3]⟩) .restore "p" 2
            (fun k => if k = 0 then .image "A" none else .noImage "x")).events →
          fileToBase64_v2 ⟨3, "image/png", [1, 2, 3]⟩ = .ok d) :=
  c8_encode_once_before_loop ⟨3, "image/png", [1, 2, 3]⟩ .restore "p" "1.0" 2
    (fun k => if k = 0 then .image "A" none else .noImage "x")
    (fun k => if k = 0 then .image "A" none else .noImage "x")
    (by decide) (by decide)

/-! ## base64 and data-URL lemmas -/

lemma string_data_append (a b : String) : (a ++ b).data = a.data ++ b.data := rfl

lemma string_mk_data (l : List Char) : (String.mk l).data = l := rfl

lemma string_toList_eq_data (s : String) : s.toList = s.data := rfl

lemma semicolon_b64_split :
    (";base64," : String).data = (";base64" : String).data ++ [','] := by decide

/-- No base64 alphabet character (nor the padding character) is a comma. -/
lemma b64Char_ne_comma (n : Nat) : b64Char n ≠ ',' := by
  have htab : ∀ c ∈ B64_TABLE, c ≠ ',' := by decide
  unfold b64Char List.getD
  cases hq : B64_TABLE.get? n with
  | none => decide
  | some c =>
    simp only [Option.getD_some]
    exact htab c (List.get?_mem hq)

/-- Every character emitted by the base64 encoder differs from a comma. -/
lemma base64Chunks_chars (bs : List Nat) : ∀ c ∈ base64Chunks bs, c ≠ ',' := by
  induction bs using base64Chunks.induct with
  | case1 =>
    intro c hc
    simp [base64Chunks] at hc
  | case2 b0 =>
    intro c hc
    simp [base64Chunks] at hc
    rcases hc with rfl | rfl | rfl
    · exact b64Char_ne_comma _
    · exact b64Char_ne_comma _
    · decide
  | case3 b0 b1 =>
    intro c hc
    simp [base64Chunks] at hc
    rcases hc with rfl | rfl | rfl | rfl
    · exact b64Char_ne_comma _
    · exact b64Char_ne_comma _
    · exact b64Char_ne_comma _
    · decide
  | case4 b0 b1 b2 rest ih =>
    intro c hc
    simp only [base64Chunks, List.mem_cons] at hc
    rcases hc with rfl | rfl | rfl | rfl | hc
    · exact b64Char_ne_comma _
    · exact b64Char_ne_comma _
    · exact b64Char_ne_comma _
    · exact b64Char_ne_comma _
    · exact ih c hc

lemma base64Chunks_ne_comma (bs : List Nat) : ',' ∉ base64Chunks bs :=
  fun hmem => base64Chunks_chars bs ',' hmem rfl

/-- JavaScript split on the first comma: a comma-free prefix becomes the
first group. -/
lemma splitComma_append (xs ys : List Char) (hx : ',' ∉ xs) :
    splitComma (xs ++ ',' :: ys) = xs :: splitComma ys := by
  induction xs with
  | nil => simp [splitComma]
  | cons c cs ih =>
    have hc : ¬(c = ',') := by
      intro h
      exact hx (by simp [h])
    have hcs : ',' ∉ cs := fun h => hx (List.mem_cons_of_mem _ h)
    simp only [List.cons_append, splitComma, hc, if_false, List.append_eq]
    rw [ih hcs]

/-- A comma-free list splits into the single group holding it whole. -/
lemma splitComma_no_comma (ys : List Char) (hy : ',' ∉ ys) :
    splitComma ys = [ys] := by
  induction ys with
  | nil => rfl
  | cons c cs ih =>
    have hc : ¬(c = ',') := by
      intro h
      exact hy (by simp [h])
    have hcs : ',' ∉ cs := fun h => hy (List.mem_cons_of_mem _ h)
    simp only [splitComma, hc, if_false]
    rw [ih hcs]

/-- Extracting the payload after the comma of the data URL recovers exactly
the base64 encoding of the file bytes, for any MIME type free of commas. -/
lemma afterComma_dataURL (f : JsFile) (hm : ',' ∉ f.mimeType.data) :
    afterComma (readAsDataURL f) = String.mk (base64Chunks f.bytes) := by
  have hpre : ',' ∉ ("data:" : String).data ++ f.mimeType.data ++ (";base64" : String).data := by
    intro hmem
    rcases List.mem_append.mp hmem with hmem | hmem
    · rcases List.mem_append.mp hmem with hmem | hmem
      · exact absurd hmem (by decide)
      · exact hm hmem
    · exact absurd hmem (by decide)
  have hlist : (readAsDataURL f).data =
      (("data:" : String).data ++ f.mimeType.data ++ (";base64" : String).data)
        ++ ',' :: base64Chunks f.bytes := by
    unfold readAsDataURL
    rw [string_data_append, string_data_append, string_data_append, string_mk_data,
      semicolon_b64_split]
    simp [List.append_assoc]
  unfold afterComma
  rw [string_toList_eq_data, hlist,
    splitComma_append _ _ hpre,
    splitComma_no_comma _ (base64Chunks_ne_comma f.bytes)]
  rfl

/-! ## Claims C9 and C10 -/

/-- C9: for every file accepted by the encode step (size within the limit;
MIME types of images contain no comma), fileToBase64 resolves to exactly the
base64 encoding of the file bytes — a pure function of the input — so
encoding the same file twice yields byte-identical output in both variants
(the part_001 variant accepts every size). -/
theorem c9_encode_deterministic_idempotent (f : JsFile)
    (hs : f.size ≤ MAX_IMAGE_SIZE) (hm : ',' ∉ f.mimeType.data) :
    fileToBase64 f = .ok (String.mk (base64Chunks f.bytes))
    ∧ fileToBase64 f = fileToBase64 f
    ∧ fileToBase64_v2 f = .ok (String.mk (base64Chunks f.bytes))
    ∧ fileToBase64_v2 f = fileToBase64_v2 f := by
  have h1 : fileToBase64 f = .ok (afterComma (readAsDataURL f)) := by
    unfold fileToBase64
    rw [if_neg (by omega)]
  have h2 := afterComma_dataURL f hm
  refine ⟨by rw [h1, h2], rfl, ?_, rfl⟩
  rw [show fileToBase64_v2 f = .ok (afterComma (readAsDataURL f)) from rfl, h2]

/-- Witness for C9: a 2-byte PNG-typed file. -/
theorem c9_encode_deterministic_idempotent_witness :
    fileToBase64 ⟨2, "image/png", [77, 97]⟩ =
      .ok (String.mk (base64Chunks [77, 97]))
    ∧ fileToBase64 ⟨2, "image/png", [77, 97]⟩ = fileToBase64 ⟨2, "image/png", [77, 97]⟩
    ∧ fileToBase64_v2 ⟨2, "image/png", [77, 97]⟩ =
      .ok (String.mk (base64Chunks [77, 97]))
    ∧ fileToBase64_v2 ⟨2, "image/png", [77, 97]⟩ =
      fileToBase64_v2 ⟨2, "image/png", [77, 97]⟩ :=
  c9_encode_deterministic_idempotent ⟨2, "image/png", [77, 97]⟩
    (by decide) (by decide)

/-- C10: fileToBase64 rejects any file whose reported size exceeds
MAX_IMAGE_SIZE before reading its content — the result on the reject path
depends only on the size, not on the bytes or MIME type — and resolves with
the encoded payload for every file at or under the limit. -/
theorem c10_encode_enforces_size_limit (f g : JsFile)
    (h : f.size > MAX_IMAGE_SIZE) (hfg : g.size = f.size) :
    fileToBase64 f = .error "Imagem muito grande. Máximo: 4MB"
    ∧ fileToBase64 f = fileToBase64 g
    ∧ ∀ f2 : JsFile, f2.size ≤ MAX_IMAGE_SIZE →
        fileToBase64 f2 = .ok (afterComma (readAsDataURL f2)) := by
  have hf : fileToBase64 f = .error "Imagem muito grande. Máximo: 4MB" := by
    unfold fileToBase64
    rw [if_pos h]
  have hg : fileToBase64 g = .error "Imagem muito grande. Máximo: 4MB" := by
    unfold fileToBase64
    rw [if_pos (by omega)]
  refine ⟨hf, by rw [hf, hg], ?_⟩
  intro f2 h2
  unfold fileToBase64
  rw [if_neg (by omega)]

/-- Witness for C10: a file one byte over the 4 MiB limit, and a same-size
file with different content and type. -/
theorem c10_encode_enforces_size_limit_witness :
    fileToBase64 ⟨4 * 1024 * 1024 + 1, "image/png", []⟩ =
      .error "Imagem muito grande. Máximo: 4MB"
    ∧ fileToBase64 ⟨4 * 1024 * 1024 + 1, "image/png", []⟩ =
        fileToBase64 ⟨4 * 1024 * 1024 + 1, "text/plain", [9, 9]⟩
    ∧ ∀ f2 : JsFile, f2.size ≤ MAX_IMAGE_SIZE →
        fileToBase64 f2 = .ok (afterComma (readAsDataURL f2)) :=
  c10_encode_enforces_size_limit ⟨4 * 1024 * 1024 + 1, "image/png", []⟩
    ⟨4 * 1024 * 1024 + 1, "text/plain", [9, 9]⟩ (by decide) rfl
